import Mathlib

/-
Verification development for the geos_agent repository.

Shallow embedding of the agent loop (geos_agent.py), its tool-call dispatch,
its logging sink, and the file/shell tools (file_tools.py, shell_tools.py).

Modelling conventions:
- JSON values are modelled by the inductive `JsonVal`; the standard-library
  functions json.loads / json.dumps are external collaborators and are
  modelled as components of `JsonEnv` (an arbitrary parser/serializer pair).
- The hosted model endpoint is modelled as an oracle function from the
  current conversation to a reply; one oracle application is one model call.
  The list of conversations sent to the oracle is recorded as a ghost trace
  (`calls`) so that "number of model calls issued" is statable.
- The audit-log file is modelled as an explicit `LogState` (its records plus
  a ghost count of attempted writes); a failing log destination is modelled
  by `LogCfg.writeFails`.
- The filesystem is modelled as a map from resolved absolute paths
  (component lists) to file contents; path resolution models pathlib
  resolution without symlinks. Each file tool additionally returns the ghost
  list of resolved paths it touched, so "performs no filesystem access" is
  statable.
- Subprocess execution and shlex word-splitting are external collaborators,
  modelled as components of `ShellEnv`. Timeouts are modelled as rationals
  (Python floats only flow into messages and the exec oracle here).
-/

/-- JSON values, as produced by json.loads and consumed by json.dumps. -/
inductive JsonVal where
  | str (s : String)
  | num (n : Int)
  | bool (b : Bool)
  | null
  | arr (xs : List JsonVal)
  | obj (kvs : List (String × JsonVal))

/-- One tool invocation requested by the model: tc.id, tc.function.name,
tc.function.arguments (the raw argument text; None is modelled by none). -/
structure ToolCall where
  id : String
  name : String
  arguments : Option String
deriving DecidableEq

/-- Message roles. -/
inductive Role where
  | system
  | user
  | assistant
  | tool
deriving DecidableEq

/-- One conversation message, as the dicts built in GeosAgent.run:
content is always a string (defaulted to empty), tool_calls is attached
only on assistant messages that requested tools, tool_call_id only on tool
messages. -/
structure Message where
  role : Role
  content : String
  tool_calls : Option (List ToolCall)
  tool_call_id : Option String
deriving DecidableEq

/-- One reply from the chat-completion endpoint: msg.content (possibly
None) and msg.tool_calls (possibly None or an empty list). -/
structure ModelReply where
  content : Option String
  tool_calls : Option (List ToolCall)

/-- What a tool returns when it does not raise: either a string (returned
verbatim) or any other JSON-serializable object (serialized via dumps). -/
inductive ToolOutput where
  | str (s : String)
  | val (v : JsonVal)

/-- A registered tool: its name and its run function. A raised exception is
modelled by Except.error carrying the exception text; this also covers the
failure of splatting non-object arguments, which the source catches at the
same place. -/
structure ToolFn where
  name : String
  run : JsonVal → Except String ToolOutput

/-- The json standard-library collaborators: json.loads (which may raise a
JSONDecodeError, modelled as Except.error) and json.dumps. -/
structure JsonEnv where
  parse : String → Except String JsonVal
  dumps : JsonVal → String

/-- Environment of the agent: the json module and the tool registry
(self.tool_map, a name-keyed lookup). -/
structure AgentEnv where
  json : JsonEnv
  tool_map : String → Option ToolFn

/-- The log records written by GeosAgent._log, one constructor per event. -/
inductive LogRecord where
  | userInput (content : String)
  | stepStart (step : Nat)
  | modelReply (step : Nat) (content_preview : String) (tools_requested : List String)
  | toolArgsParseError (tool : String) (error : String) (raw : String)
  | toolUnknown (tool : String) (args : JsonVal)
  | toolRunOk (tool : String) (args : JsonVal) (result_preview : String)
  | toolRunException (tool : String) (args : JsonVal) (error : String)
  | runComplete (step : Nat) (outcome : String)
  | maxStepsReached (max_steps : Nat)

/-- Logging configuration: whether log_path is set, and whether writes to it
raise (an environmental fact about the destination). -/
structure LogCfg where
  enabled : Bool
  writeFails : Bool

/-- State of the log destination: the records successfully appended, plus a
ghost count of attempted writes (used to state that a disabled log performs
no write at all). -/
structure LogState where
  records : List LogRecord
  writeAttempts : Nat

/-- GeosAgent._log: returns immediately when log_path is unset; otherwise
attempts one append, swallowing any write failure. -/
def GeosAgent.log (cfg : LogCfg) (st : LogState) (r : LogRecord) : LogState :=
  if cfg.enabled = false then st
  else
    { records := if cfg.writeFails then st.records else st.records ++ [r]
      writeAttempts := st.writeAttempts + 1 }

/-- The literal two-character empty-object text substituted for falsy
argument fields (source line: tool_call.function.arguments or that text). -/
def emptyObjStr : String := "\x7b\x7d"

/-- The argument text actually parsed: the raw arguments, with None and the
empty string replaced by the empty-object text (Python falsiness). -/
def argsStrOf (tc : ToolCall) : String :=
  match tc.arguments with
  | none => emptyObjStr
  | some s => if s = "" then emptyObjStr else s

/-- GeosAgent._run_tool_call: parse the arguments (structured error on
failure), look up the tool (structured error on miss), run it (structured
error if it raises), logging each outcome. Returns the result string and
the updated log state. -/
def GeosAgent.runToolCall (env : AgentEnv) (lcfg : LogCfg) (lst : LogState)
    (tc : ToolCall) : String × LogState :=
  let args_str := argsStrOf tc
  match env.json.parse args_str with
  | .error e =>
      let result := JsonVal.obj
        [("error", .str ("Failed to parse tool arguments: " ++ e)), ("raw", .str args_str)]
      (env.json.dumps result, GeosAgent.log lcfg lst (.toolArgsParseError tc.name e args_str))
  | .ok args =>
      match env.tool_map tc.name with
      | none =>
          let result := JsonVal.obj
            [("error", .str ("Unknown tool: " ++ tc.name)), ("args", args)]
          (env.json.dumps result, GeosAgent.log lcfg lst (.toolUnknown tc.name args))
      | some tool =>
          match tool.run args with
          | .ok (.str s) =>
              (s, GeosAgent.log lcfg lst (.toolRunOk tc.name args (s.take 500)))
          | .ok (.val v) =>
              let s := env.json.dumps v
              (s, GeosAgent.log lcfg lst (.toolRunOk tc.name args (s.take 500)))
          | .error e =>
              let result := JsonVal.obj
                [("error", .str ("Tool " ++ tc.name ++ " raised an exception: " ++ e)), ("args", args)]
              (env.json.dumps result, GeosAgent.log lcfg lst (.toolRunException tc.name args e))

/-- The inner for-loop of GeosAgent.run over one turn's tool calls: run each
call in order, appending one tool-role message per call carrying that
call's id. -/
def GeosAgent.execToolCalls (env : AgentEnv) (lcfg : LogCfg) :
    List ToolCall → List Message → LogState → List Message × LogState
  | [], msgs, lst => (msgs, lst)
  | tc :: rest, msgs, lst =>
      let r := GeosAgent.runToolCall env lcfg lst tc
      GeosAgent.execToolCalls env lcfg rest
        (msgs ++ [{ role := .tool, content := r.1, tool_calls := none,
                    tool_call_id := some tc.id }]) r.2

/-- Python truthiness of msg.tool_calls: None and the empty list are falsy. -/
def truthyCalls : Option (List ToolCall) → Bool
  | some (_ :: _) => true
  | _ => false

/-- The assistant message appended for a model reply: content defaults to
the empty string; tool_calls is attached only when truthy. -/
def assistantMsgOf (reply : ModelReply) : Message :=
  { role := .assistant
    content := reply.content.getD ""
    tool_calls := if truthyCalls reply.tool_calls then reply.tool_calls else none
    tool_call_id := none }

/-- next((m for m in reversed(messages) if role is assistant), None). -/
def lastAssistant (msgs : List Message) : Option Message :=
  msgs.reverse.find? (fun m =>
    match m.role with
    | Role.assistant => true
    | _ => false)

/-- (last_assistant or empty-dict).get of content with default empty. -/
def lastAssistantText (msgs : List Message) : String :=
  ((lastAssistant msgs).map (fun m => m.content)).getD ""

/-- The fixed system prompt of GeosAgent (apostrophes escaped). -/
def systemPrompt : String :=
  "You are GEOS-Agent, an expert assistant for the GEOS / GEOSX software.\n" ++
  "- You can inspect and edit files in the workspace.\n" ++
  "- You can run shell commands and short Python snippets.\n" ++
  "- For now, GEOS itself and documentation search are partially stubbed; " ++
  "if a tool response says it\x27s a stub, explain what *should* happen and " ++
  "suggest concrete next steps.\n" ++
  "- Prefer small, incremental changes to files rather than massive rewrites.\n" ++
  "- Always explain what you are doing and why, especially before running " ++
  "any shell commands.\n" ++
  "- Treat all paths as relative to the workspace root unless explicitly " ++
  "told otherwise."

/-- The system message opening every run. -/
def systemMessage : Message :=
  { role := .system, content := systemPrompt, tool_calls := none, tool_call_id := none }

/-- The user message for a given instruction. -/
def userMessage (user_input : String) : Message :=
  { role := .user, content := user_input, tool_calls := none, tool_call_id := none }

/-- The conversation immediately after the reset at the top of run. -/
def initialMessages (user_input : String) : List Message :=
  [systemMessage, userMessage user_input]

/-- AgentConfig (agent_config.py); temperature is a sampling float that
never affects the loop and is omitted from the model. -/
structure AgentConfig where
  model : String
  max_tokens : Nat
  max_steps : Nat

/-- Result of the bounded step loop: final conversation, the ghost trace of
conversations sent to the model (one entry per model call, in order), the
final text when the loop stopped naturally (none when the budget ran out),
and the log state. -/
structure LoopOut where
  messages : List Message
  calls : List (List Message)
  finalText : Option String
  logState : LogState

/-- The for-loop of GeosAgent.run: fuel counts the remaining steps of
range over 1..max_steps; step is the current step number. -/
def GeosAgent.loop (env : AgentEnv) (lcfg : LogCfg)
    (oracle : List Message → ModelReply) :
    Nat → List Message → LogState → Nat → LoopOut
  | _, msgs, lst, 0 => { messages := msgs, calls := [], finalText := none, logState := lst }
  | step, msgs, lst, n + 1 =>
      let lst1 := GeosAgent.log lcfg lst (.stepStart step)
      let reply := oracle msgs
      let amsg := assistantMsgOf reply
      let msgs1 := msgs ++ [amsg]
      let lst2 := GeosAgent.log lcfg lst1
        (.modelReply step ((reply.content.getD "").take 200)
          ((reply.tool_calls.getD []).map (fun tc => tc.name)))
      if truthyCalls reply.tool_calls then
        let r := GeosAgent.execToolCalls env lcfg (reply.tool_calls.getD []) msgs1 lst2
        let out := GeosAgent.loop env lcfg oracle (step + 1) r.1 r.2 n
        { out with calls := msgs :: out.calls }
      else
        let lst3 := GeosAgent.log lcfg lst2 (.runComplete step "no_tool_calls")
        { messages := msgs1, calls := [msgs], finalText := some (reply.content.getD ""),
          logState := lst3 }

/-- Outcome of a top-level run: the returned string, the final conversation,
the ghost model-call trace, whether the stop was natural (a reply with no
tool calls) and the final log state. -/
structure RunOut where
  result : String
  messages : List Message
  calls : List (List Message)
  natural : Bool
  logState : LogState

/-- GeosAgent.run: reset the conversation (discarding prior, the leftover
self.messages), log the input, run the bounded loop, and on budget
exhaustion return the content of the most recent assistant message. -/
def GeosAgent.run (env : AgentEnv) (lcfg : LogCfg)
    (oracle : List Message → ModelReply) (cfg : AgentConfig)
    (prior : List Message) (lst : LogState) (user_input : String) : RunOut :=
  let msgs0 := initialMessages user_input
  let lst1 := GeosAgent.log lcfg lst (.userInput user_input)
  let out := GeosAgent.loop env lcfg oracle 1 msgs0 lst1 cfg.max_steps
  match out.finalText with
  | some t =>
      { result := t, messages := out.messages, calls := out.calls,
        natural := true, logState := out.logState }
  | none =>
      { result := lastAssistantText out.messages, messages := out.messages,
        calls := out.calls, natural := false,
        logState := GeosAgent.log lcfg out.logState (.maxStepsReached cfg.max_steps) }

/-- The tool-role message produced for one tool call (its content does not
depend on the log, proved below). -/
def toolMsgOf (env : AgentEnv) (tc : ToolCall) : Message :=
  { role := .tool
    content := (GeosAgent.runToolCall env { enabled := false, writeFails := false }
      { records := [], writeAttempts := 0 } tc).1
    tool_calls := none
    tool_call_id := some tc.id }

/-- Python str.startswith: character-sequence prefix test. -/
def strPre : List Char → List Char → Bool
  | [], _ => true
  | _ :: _, [] => false
  | a :: as, b :: bs => (a == b) && strPre as bs

/-- str(abs_path).startswith(str(root)) on rendered paths. -/
def pyStartsWith (s pre : String) : Bool := strPre pre.data s.data

/-- One component of pathlib resolution: empty and dot components vanish,
dot-dot pops (the parent of the filesystem root is itself), anything else
descends. -/
def stepComp (acc : List String) (c : String) : List String :=
  if c = "" then acc
  else if c = "." then acc
  else if c = ".." then acc.dropLast
  else acc ++ [c]

/-- Split a character sequence at slashes (structural model of splitting a
POSIX path string into components). -/
def splitSlashAux : List Char → List Char → List String
  | [], acc => [String.mk acc.reverse]
  | c :: cs, acc =>
      if c = '/' then String.mk acc.reverse :: splitSlashAux cs []
      else splitSlashAux cs (c :: acc)

/-- The slash-separated components of a path string. -/
def splitSlash (s : String) : List String := splitSlashAux s.data []

/-- (workspace_root / path).resolve() on a symlink-free filesystem: an
absolute path ignores the root; components are normalized left to right. -/
def resolvePath (root : List String) (path : String) : List String :=
  (splitSlash path).foldl stepComp
    (if pyStartsWith path "/" then [] else root)

/-- str of a resolved PosixPath: a slash, then the components joined by
slashes; the bare filesystem root renders as a single slash. -/
def renderPath (comps : List String) : String :=
  match comps with
  | [] => "/"
  | _ => String.mk (comps.foldl (fun acc c => acc ++ '/' :: c.data) [])

/-- The filesystem as the file tools see it: contents of the file at a
resolved absolute path, if a file exists there. -/
def FileSys : Type := List String → Option String

/-- ReadFileTool.run: resolve, enforce the string-prefix containment check,
then read (truncating past max_chars). The second component is the ghost
list of resolved paths touched on disk. -/
def ReadFileTool.run (root : List String) (fs : FileSys) (path : String)
    (max_chars : Nat) : JsonVal × List (List String) :=
  let abs_path := resolvePath root path
  if pyStartsWith (renderPath abs_path) (renderPath root) = false then
    (.obj [("error", .str "Attempted to read outside of workspace.")], [])
  else
    match fs abs_path with
    | none => (.obj [("error", .str ("File does not exist: " ++ path))], [abs_path])
    | some text =>
        let text2 :=
          if text.length > max_chars then text.take max_chars ++ "\n...[truncated]..."
          else text
        (.obj [("path", .str path), ("content", .str text2)], [abs_path])

/-- WriteFileTool.run: resolve, containment check, then write with mode w
(truncate) when overwrite or the file is absent, else mode a (append).
Returns the result payload and the updated filesystem. Parent-directory
creation and open failures are not modelled (the filesystem map is total). -/
def WriteFileTool.run (root : List String) (fs : FileSys) (path content : String)
    (overwrite : Bool) : JsonVal × FileSys :=
  let abs_path := resolvePath root path
  if pyStartsWith (renderPath abs_path) (renderPath root) = false then
    (.obj [("error", .str "Attempted to write outside of workspace.")], fs)
  else
    let mode := if overwrite || (fs abs_path).isNone then "w" else "a"
    let newText := if mode = "w" then content else (fs abs_path).getD "" ++ content
    (.obj [("path", .str path), ("status", .str "ok"), ("mode", .str mode),
           ("message", .str ("Wrote " ++ toString content.length ++ " chars to " ++ path))],
     fun q => if q = abs_path then some newText else fs q)

/-- One directory entry as ListDirTool reports it. -/
structure DirEntry where
  name : String
  is_dir : Bool
  size_bytes : Option Int

/-- What the filesystem says about a path queried as a directory; the
sorted-entries listing abstracts iterdir plus the per-entry stat calls. -/
inductive DirLookup where
  | missing
  | notDir
  | dir (entries : List DirEntry)

/-- JSON shape of one ListDirTool entry. -/
def entryJson (e : DirEntry) : JsonVal :=
  .obj [("name", .str e.name), ("is_dir", .bool e.is_dir),
        ("size_bytes", match e.size_bytes with | some n => .num n | none => .null)]

/-- ListDirTool.run: resolve, containment check, then existence and
directory checks, then the listing. Ghost access list as with the reader. -/
def ListDirTool.run (root : List String) (dfs : List String → DirLookup)
    (path : String) : JsonVal × List (List String) :=
  let abs_dir := resolvePath root path
  if pyStartsWith (renderPath abs_dir) (renderPath root) = false then
    (.obj [("error", .str "Attempted to list outside of workspace.")], [])
  else
    match dfs abs_dir with
    | .missing => (.obj [("error", .str ("Directory does not exist: " ++ path))], [abs_dir])
    | .notDir => (.obj [("error", .str ("Not a directory: " ++ path))], [abs_dir])
    | .dir entries =>
        (.obj [("path", .str path), ("entries", .arr (entries.map entryJson))], [abs_dir])

/-- Python s[-n:]: the last n characters (the whole string when shorter). -/
def pyLastN (n : Nat) (s : String) : String :=
  String.mk (s.data.drop (s.data.length - n))

/-- e.stdout[-4000:] if e.stdout else empty: partial output captured at a
timeout, with None and the empty string both yielding the empty string. -/
def pyPartial (o : Option String) : String :=
  match o with
  | none => ""
  | some s => if s = "" then "" else pyLastN 4000 s

/-- Outcome of one subprocess.run invocation: normal completion, a
TimeoutExpired carrying optional partial output, or any launch failure
(missing executable and the like) with its exception text. -/
inductive ExecOutcome where
  | completed (returncode : Int) (stdout stderr : String)
  | timedOut (stdout stderr : Option String)
  | failed (msg : String)

/-- The shell collaborators: shlex.split (which may raise ValueError on
unbalanced quoting) and subprocess.run (given cwd, argv and the timeout),
plus the textual rendering of the timeout float for messages. -/
structure ShellEnv where
  shlexSplit : String → Except String (List String)
  exec : List String → List String → ℚ → ExecOutcome
  floatStr : ℚ → String

/-- ShellCommandTool.run: tokenize, run with cwd at the workspace root,
and fold every failure into a structured payload; captured stdout/stderr
are truncated to their last 4000 characters. -/
def ShellCommandTool.run (env : ShellEnv) (root : List String)
    (command : String) (timeout_sec : ℚ) : JsonVal :=
  match env.shlexSplit command with
  | .error e => .obj [("error", .str ("Failed to parse command: " ++ e))]
  | .ok args =>
      match env.exec root args timeout_sec with
      | .completed rc out err =>
          .obj [("command", .str command), ("returncode", .num rc),
                ("stdout", .str (pyLastN 4000 out)), ("stderr", .str (pyLastN 4000 err))]
      | .timedOut out err =>
          .obj [("command", .str command),
                ("error", .str ("Command timed out after " ++ env.floatStr timeout_sec
                  ++ " seconds")),
                ("stdout", .str (pyPartial out)), ("stderr", .str (pyPartial err))]
      | .failed m =>
          .obj [("command", .str command),
                ("error", .str ("Failed to run command: " ++ m))]

/-- The string result of one tool-call dispatch does not depend on the log
configuration or state (logging only accumulates records). -/
theorem runToolCall_fst_log_indep (env : AgentEnv) (a b : LogCfg)
    (s t : LogState) (tc : ToolCall) :
    (GeosAgent.runToolCall env a s tc).1 = (GeosAgent.runToolCall env b t tc).1 := by
  simp only [GeosAgent.runToolCall]
  cases h : env.json.parse (argsStrOf tc) with
  | error e => simp [h]
  | ok args =>
      simp only [h]
      cases hm : env.tool_map tc.name with
      | none => simp [hm]
      | some tool =>
          simp only [hm]
          cases hr : tool.run args with
          | error e => simp [hr]
          | ok o => cases o <;> simp [hr]

/-- The messages produced by one turn's tool-execution loop: the input
conversation followed by one tool-role message per call, in call order. -/
theorem execToolCalls_fst (env : AgentEnv) (lcfg : LogCfg) (tcs : List ToolCall)
    (msgs : List Message) (lst : LogState) :
    (GeosAgent.execToolCalls env lcfg tcs msgs lst).1
      = msgs ++ tcs.map (toolMsgOf env) := by
  induction tcs generalizing msgs lst with
  | nil => simp [GeosAgent.execToolCalls]
  | cons tc rest ih =>
      have hmsg : ({ role := Role.tool, content := (GeosAgent.runToolCall env lcfg lst tc).1,
                     tool_calls := none, tool_call_id := some tc.id } : Message)
          = toolMsgOf env tc := by
        simp [toolMsgOf, runToolCall_fst_log_indep env lcfg
          { enabled := false, writeFails := false } lst { records := [], writeAttempts := 0 } tc]
      simp only [GeosAgent.execToolCalls, List.map_cons, ih, hmsg, List.append_assoc,
        List.singleton_append]

/-- The loop's conversation, model-call trace and outcome do not depend on
the logging configuration or the initial log state. -/
theorem loop_log_indep (env : AgentEnv) (oracle : List Message → ModelReply)
    (a b : LogCfg) (n : Nat) (step : Nat) (msgs : List Message) (s t : LogState) :
    (GeosAgent.loop env a oracle step msgs s n).messages
      = (GeosAgent.loop env b oracle step msgs t n).messages ∧
    (GeosAgent.loop env a oracle step msgs s n).calls
      = (GeosAgent.loop env b oracle step msgs t n).calls ∧
    (GeosAgent.loop env a oracle step msgs s n).finalText
      = (GeosAgent.loop env b oracle step msgs t n).finalText := by
  induction n generalizing step msgs s t with
  | zero => exact ⟨rfl, rfl, rfl⟩
  | succ n ih =>
      simp only [GeosAgent.loop]
      cases htc : truthyCalls (oracle msgs).tool_calls with
      | false => simp
      | true =>
          simp only [eq_self_iff_true, if_true]
          rw [execToolCalls_fst, execToolCalls_fst]
          refine ⟨?_, ?_, ?_⟩
          · exact (ih _ _ _ _).1
          · exact congrArg (fun l => msgs :: l) (ih _ _ _ _).2.1
          · exact (ih _ _ _ _).2.2

/-- The loop issues at most as many model calls as it has remaining steps. -/
theorem loop_calls_le (env : AgentEnv) (lcfg : LogCfg)
    (oracle : List Message → ModelReply) (n step : Nat) (msgs : List Message)
    (lst : LogState) :
    (GeosAgent.loop env lcfg oracle step msgs lst n).calls.length ≤ n := by
  induction n generalizing step msgs lst with
  | zero => simp [GeosAgent.loop]
  | succ n ih =>
      simp only [GeosAgent.loop]
      cases htc : truthyCalls (oracle msgs).tool_calls with
      | false => simp
      | true =>
          simp only [eq_self_iff_true, if_true, List.length_cons]
          exact Nat.succ_le_succ (ih _ _ _)

/-- When the loop runs at all, its first model call is on exactly the
conversation it was given. -/
theorem loop_calls_head (env : AgentEnv) (lcfg : LogCfg)
    (oracle : List Message → ModelReply) (n step : Nat) (msgs : List Message)
    (lst : LogState) :
    (GeosAgent.loop env lcfg oracle step msgs lst (n + 1)).calls.head? = some msgs := by
  simp only [GeosAgent.loop]
  cases htc : truthyCalls (oracle msgs).tool_calls with
  | false => simp
  | true => simp

/-- C1: a run issues at most max_steps model calls; when the budget is
exhausted without a reply free of tool calls, the run returns the content of
the most recent assistant message (the empty string when there is none)
instead of failing. -/
theorem c1_step_budget_and_exhaustion (env : AgentEnv) (lcfg : LogCfg)
    (oracle : List Message → ModelReply) (cfg : AgentConfig)
    (prior : List Message) (lst : LogState) (user_input : String) :
    (GeosAgent.run env lcfg oracle cfg prior lst user_input).calls.length
        ≤ cfg.max_steps ∧
    ((GeosAgent.run env lcfg oracle cfg prior lst user_input).natural = false →
      (GeosAgent.run env lcfg oracle cfg prior lst user_input).result
        = lastAssistantText
            (GeosAgent.run env lcfg oracle cfg prior lst user_input).messages) := by
  cases hft : (GeosAgent.loop env lcfg oracle 1 (initialMessages user_input)
      (GeosAgent.log lcfg lst (.userInput user_input)) cfg.max_steps).finalText with
  | none =>
      refine ⟨?_, fun _ => ?_⟩
      · simpa [GeosAgent.run, hft] using loop_calls_le env lcfg oracle cfg.max_steps 1 _ _
      · simp [GeosAgent.run, hft]
  | some t =>
      refine ⟨?_, ?_⟩
      · simpa [GeosAgent.run, hft] using loop_calls_le env lcfg oracle cfg.max_steps 1 _ _
      · simp [GeosAgent.run, hft]

/-- C2: a reply with N tool calls leads to exactly N tool-role messages,
appended in call order right after the assistant message and before the
next model call, each carrying its own call's identifier, whatever each
dispatch produced. -/
theorem c2_one_tool_message_per_call (env : AgentEnv) (lcfg : LogCfg)
    (oracle : List Message → ModelReply) (step : Nat) (msgs : List Message)
    (lst : LogState) (n : Nat)
    (h : truthyCalls (oracle msgs).tool_calls = true) :
    (∃ lst2,
      GeosAgent.loop env lcfg oracle step msgs lst (n + 1)
        = { GeosAgent.loop env lcfg oracle (step + 1)
              (msgs ++ [assistantMsgOf (oracle msgs)]
                ++ ((oracle msgs).tool_calls.getD []).map (toolMsgOf env)) lst2 n with
            calls := msgs :: (GeosAgent.loop env lcfg oracle (step + 1)
              (msgs ++ [assistantMsgOf (oracle msgs)]
                ++ ((oracle msgs).tool_calls.getD []).map (toolMsgOf env)) lst2 n).calls }) ∧
    (((oracle msgs).tool_calls.getD []).map (toolMsgOf env)).length
        = ((oracle msgs).tool_calls.getD []).length ∧
    (∀ tc : ToolCall, (toolMsgOf env tc).role = Role.tool
        ∧ (toolMsgOf env tc).tool_call_id = some tc.id) := by
  refine ⟨?_, by simp, fun tc => ⟨rfl, rfl⟩⟩
  refine ⟨(GeosAgent.execToolCalls env lcfg ((oracle msgs).tool_calls.getD [])
      (msgs ++ [assistantMsgOf (oracle msgs)])
      (GeosAgent.log lcfg (GeosAgent.log lcfg lst (.stepStart step))
        (.modelReply step (((oracle msgs).content.getD "").take 200)
          (((oracle msgs).tool_calls.getD []).map (fun tc => tc.name))))).2, ?_⟩
  simp only [GeosAgent.loop, h, eq_self_iff_true, if_true]
  rw [execToolCalls_fst]

/-- C3: when the first reply has no tool calls, the run makes exactly one
model call (on the freshly reset conversation) and returns that reply's
text, defaulted to the empty string. -/
theorem c3_first_reply_without_tools (env : AgentEnv) (lcfg : LogCfg)
    (oracle : List Message → ModelReply) (cfg : AgentConfig)
    (prior : List Message) (lst : LogState) (user_input : String)
    (hsteps : 1 ≤ cfg.max_steps)
    (hnt : truthyCalls (oracle (initialMessages user_input)).tool_calls = false) :
    (GeosAgent.run env lcfg oracle cfg prior lst user_input).result
        = (oracle (initialMessages user_input)).content.getD "" ∧
    (GeosAgent.run env lcfg oracle cfg prior lst user_input).calls
        = [initialMessages user_input] := by
  obtain ⟨n, hn⟩ : ∃ n, cfg.max_steps = n + 1 := ⟨cfg.max_steps - 1, by omega⟩
  constructor <;> simp [GeosAgent.run, hn, GeosAgent.loop, hnt]

/-- C8: each run discards whatever conversation a previous run left behind,
and the first model call of a run sees exactly the system prompt followed by
the user message. -/
theorem c8_conversation_reset (env : AgentEnv) (lcfg : LogCfg)
    (oracle : List Message → ModelReply) (cfg : AgentConfig)
    (priorA priorB : List Message) (lst : LogState) (user_input : String)
    (hsteps : 1 ≤ cfg.max_steps) :
    GeosAgent.run env lcfg oracle cfg priorA lst user_input
      = GeosAgent.run env lcfg oracle cfg priorB lst user_input ∧
    (GeosAgent.run env lcfg oracle cfg priorA lst user_input).calls.head?
      = some (initialMessages user_input) := by
  obtain ⟨n, hn⟩ : ∃ n, cfg.max_steps = n + 1 := ⟨cfg.max_steps - 1, by omega⟩
  refine ⟨rfl, ?_⟩
  have h := loop_calls_head env lcfg oracle n 1 (initialMessages user_input)
    (GeosAgent.log lcfg lst (.userInput user_input))
  cases hft : (GeosAgent.loop env lcfg oracle 1 (initialMessages user_input)
      (GeosAgent.log lcfg lst (.userInput user_input)) (n + 1)).finalText with
  | none => simpa [GeosAgent.run, hn, hft] using h
  | some t => simpa [GeosAgent.run, hn, hft] using h

/-- C9: logging never affects the loop: with the same model replies, the
returned result, final conversation, model-call trace and stop kind are the
same whether the log is absent, writable or failing; and a disabled log
leaves the log state untouched (no write is attempted). -/
theorem c9_logging_never_interferes (env : AgentEnv)
    (oracle : List Message → ModelReply) (cfg : AgentConfig)
    (prior : List Message) (user_input : String)
    (a b : LogCfg) (sa sb : LogState) :
    ((GeosAgent.run env a oracle cfg prior sa user_input).result
        = (GeosAgent.run env b oracle cfg prior sb user_input).result ∧
      (GeosAgent.run env a oracle cfg prior sa user_input).messages
        = (GeosAgent.run env b oracle cfg prior sb user_input).messages ∧
      (GeosAgent.run env a oracle cfg prior sa user_input).calls
        = (GeosAgent.run env b oracle cfg prior sb user_input).calls ∧
      (GeosAgent.run env a oracle cfg prior sa user_input).natural
        = (GeosAgent.run env b oracle cfg prior sb user_input).natural) ∧
    (∀ (w : Bool) (st : LogState) (r : LogRecord),
      GeosAgent.log { enabled := false, writeFails := w } st r = st) := by
  refine ⟨?_, fun w st r => by simp [GeosAgent.log]⟩
  obtain ⟨hm, hc, hf⟩ := loop_log_indep env oracle a b cfg.max_steps 1
    (initialMessages user_input)
    (GeosAgent.log a sa (.userInput user_input))
    (GeosAgent.log b sb (.userInput user_input))
  cases hft : (GeosAgent.loop env a oracle 1 (initialMessages user_input)
      (GeosAgent.log a sa (.userInput user_input)) cfg.max_steps).finalText with
  | none =>
      have hftB := hf.symm.trans hft
      simp [GeosAgent.run, hft, hftB, hm, hc]
  | some t =>
      have hftB := hf.symm.trans hft
      simp [GeosAgent.run, hft, hftB, hm, hc]

/-- A concrete json collaborator for witnesses: parses only the
empty-object text, failing on everything else. -/
def sampleJson : JsonEnv :=
  { parse := fun s => if s = emptyObjStr then .ok (.obj []) else .error "Expecting value"
    dumps := fun _ => "serialized" }

/-- A tool that succeeds with a fixed string. -/
def sampleToolOk : ToolFn :=
  { name := "echo", run := fun _ => .ok (.str "echoed") }

/-- A tool that always raises. -/
def sampleToolRaise : ToolFn :=
  { name := "boom", run := fun _ => .error "RuntimeError" }

/-- A concrete agent environment for witnesses. -/
def sampleEnv : AgentEnv :=
  { json := sampleJson
    tool_map := fun n =>
      if n = "echo" then some sampleToolOk
      else if n = "boom" then some sampleToolRaise
      else none }

/-- Disabled logging for witnesses. -/
def sampleLogCfg : LogCfg := { enabled := false, writeFails := false }

/-- Empty log state for witnesses. -/
def sampleLogState : LogState := { records := [], writeAttempts := 0 }

/-- A two-step configuration for witnesses. -/
def sampleCfg : AgentConfig := { model := "gpt", max_tokens := 2048, max_steps := 2 }

/-- A concrete tool call with empty-object arguments. -/
def sampleToolCall : ToolCall :=
  { id := "call-1", name := "echo", arguments := some emptyObjStr }

/-- An oracle that always requests one echo tool call. -/
def sampleOracleLoop : List Message → ModelReply :=
  fun _ => { content := some "working", tool_calls := some [sampleToolCall] }

/-- An oracle that immediately answers with no tool calls. -/
def sampleOracleStop : List Message → ModelReply :=
  fun _ => { content := some "done", tool_calls := none }

/-- Witness for C1 at a concrete run that exhausts its two-step budget. -/
theorem c1_witness :
    (GeosAgent.run sampleEnv sampleLogCfg sampleOracleLoop sampleCfg []
        sampleLogState "task").natural = false ∧
    (GeosAgent.run sampleEnv sampleLogCfg sampleOracleLoop sampleCfg []
        sampleLogState "task").calls.length ≤ sampleCfg.max_steps ∧
    (GeosAgent.run sampleEnv sampleLogCfg sampleOracleLoop sampleCfg []
        sampleLogState "task").result
      = lastAssistantText (GeosAgent.run sampleEnv sampleLogCfg sampleOracleLoop
          sampleCfg [] sampleLogState "task").messages :=
  ⟨rfl,
   (c1_step_budget_and_exhaustion sampleEnv sampleLogCfg sampleOracleLoop sampleCfg []
      sampleLogState "task").1,
   (c1_step_budget_and_exhaustion sampleEnv sampleLogCfg sampleOracleLoop sampleCfg []
      sampleLogState "task").2 rfl⟩

/-- Witness for C2 at a concrete one-call turn. -/
theorem c2_witness :
    truthyCalls (sampleOracleLoop []).tool_calls = true ∧
    (∃ lst2,
      GeosAgent.loop sampleEnv sampleLogCfg sampleOracleLoop 1 [] sampleLogState 1
        = { GeosAgent.loop sampleEnv sampleLogCfg sampleOracleLoop 2
              ([] ++ [assistantMsgOf (sampleOracleLoop [])]
                ++ ((sampleOracleLoop []).tool_calls.getD []).map (toolMsgOf sampleEnv))
              lst2 0 with
            calls := [] :: (GeosAgent.loop sampleEnv sampleLogCfg sampleOracleLoop 2
              ([] ++ [assistantMsgOf (sampleOracleLoop [])]
                ++ ((sampleOracleLoop []).tool_calls.getD []).map (toolMsgOf sampleEnv))
              lst2 0).calls }) ∧
    (((sampleOracleLoop []).tool_calls.getD []).map (toolMsgOf sampleEnv)).length
        = ((sampleOracleLoop []).tool_calls.getD []).length ∧
    ((toolMsgOf sampleEnv sampleToolCall).role = Role.tool
        ∧ (toolMsgOf sampleEnv sampleToolCall).tool_call_id = some sampleToolCall.id) :=
  ⟨rfl,
   (c2_one_tool_message_per_call sampleEnv sampleLogCfg sampleOracleLoop 1 []
      sampleLogState 0 rfl).1,
   (c2_one_tool_message_per_call sampleEnv sampleLogCfg sampleOracleLoop 1 []
      sampleLogState 0 rfl).2.1,
   (c2_one_tool_message_per_call sampleEnv sampleLogCfg sampleOracleLoop 1 []
      sampleLogState 0 rfl).2.2 sampleToolCall⟩

/-- Witness for C3 at a concrete no-tool first reply. -/
theorem c3_witness :
    1 ≤ sampleCfg.max_steps ∧
    truthyCalls (sampleOracleStop (initialMessages "hi")).tool_calls = false ∧
    (GeosAgent.run sampleEnv sampleLogCfg sampleOracleStop sampleCfg []
        sampleLogState "hi").result = "done" ∧
    (GeosAgent.run sampleEnv sampleLogCfg sampleOracleStop sampleCfg []
        sampleLogState "hi").calls = [initialMessages "hi"] :=
  ⟨by decide, rfl,
   (c3_first_reply_without_tools sampleEnv sampleLogCfg sampleOracleStop sampleCfg []
      sampleLogState "hi" (by decide) rfl).1,
   (c3_first_reply_without_tools sampleEnv sampleLogCfg sampleOracleStop sampleCfg []
      sampleLogState "hi" (by decide) rfl).2⟩

/-- Witness for C8 with two different leftover conversations. -/
theorem c8_witness :
    1 ≤ sampleCfg.max_steps ∧
    GeosAgent.run sampleEnv sampleLogCfg sampleOracleStop sampleCfg
        [userMessage "stale"] sampleLogState "task"
      = GeosAgent.run sampleEnv sampleLogCfg sampleOracleStop sampleCfg []
          sampleLogState "task" ∧
    (GeosAgent.run sampleEnv sampleLogCfg sampleOracleStop sampleCfg
        [userMessage "stale"] sampleLogState "task").calls.head?
      = some (initialMessages "task") :=
  ⟨by decide,
   (c8_conversation_reset sampleEnv sampleLogCfg sampleOracleStop sampleCfg
      [userMessage "stale"] [] sampleLogState "task" (by decide)).1,
   (c8_conversation_reset sampleEnv sampleLogCfg sampleOracleStop sampleCfg
      [userMessage "stale"] [] sampleLogState "task" (by decide)).2⟩

/-- C4: each failure mode of tool dispatch yields a structured string
payload: unparsable argument text yields an argument-error payload carrying
the raw text (for every tool registry, so no tool is consulted), an
unregistered name yields an unknown-tool payload, and a raising tool yields
an exception payload; dispatch itself is a total function into strings. -/
theorem c4_dispatch_error_cases (env : AgentEnv) (lcfg : LogCfg)
    (lst : LogState) (tc : ToolCall) :
    (∀ s e, tc.arguments = some s → ¬ s = "" → env.json.parse s = .error e →
        (GeosAgent.runToolCall env lcfg lst tc).1
          = env.json.dumps (.obj
              [("error", .str ("Failed to parse tool arguments: " ++ e)),
               ("raw", .str s)])) ∧
    (∀ args, env.json.parse (argsStrOf tc) = .ok args →
        env.tool_map tc.name = none →
        (GeosAgent.runToolCall env lcfg lst tc).1
          = env.json.dumps (.obj
              [("error", .str ("Unknown tool: " ++ tc.name)), ("args", args)])) ∧
    (∀ args tool e, env.json.parse (argsStrOf tc) = .ok args →
        env.tool_map tc.name = some tool → tool.run args = .error e →
        (GeosAgent.runToolCall env lcfg lst tc).1
          = env.json.dumps (.obj
              [("error", .str ("Tool " ++ tc.name ++ " raised an exception: " ++ e)),
               ("args", args)])) := by
  refine ⟨?_, ?_, ?_⟩
  · intro s e ha hne hp
    have hs : argsStrOf tc = s := by simp [argsStrOf, ha, hne]
    simp [GeosAgent.runToolCall, hs, hp]
  · intro args hp hm
    simp [GeosAgent.runToolCall, hp, hm]
  · intro args tool e hp hm hr
    simp [GeosAgent.runToolCall, hp, hm, hr]

/-- Witness for C4: the three failure modes at concrete calls. -/
theorem c4_witness :
    ((⟨"b1", "echo", some "oops"⟩ : ToolCall).arguments = some "oops" ∧
      ¬ "oops" = "" ∧
      sampleEnv.json.parse "oops" = .error "Expecting value" ∧
      (GeosAgent.runToolCall sampleEnv sampleLogCfg sampleLogState
          ⟨"b1", "echo", some "oops"⟩).1
        = sampleEnv.json.dumps (.obj
            [("error", .str ("Failed to parse tool arguments: " ++ "Expecting value")),
             ("raw", .str "oops")])) ∧
    (sampleEnv.json.parse (argsStrOf ⟨"u1", "nope", some emptyObjStr⟩) = .ok (.obj []) ∧
      sampleEnv.tool_map "nope" = none ∧
      (GeosAgent.runToolCall sampleEnv sampleLogCfg sampleLogState
          ⟨"u1", "nope", some emptyObjStr⟩).1
        = sampleEnv.json.dumps (.obj
            [("error", .str ("Unknown tool: " ++ "nope")), ("args", .obj [])])) ∧
    (sampleEnv.json.parse (argsStrOf ⟨"r1", "boom", some emptyObjStr⟩) = .ok (.obj []) ∧
      sampleEnv.tool_map "boom" = some sampleToolRaise ∧
      sampleToolRaise.run (.obj []) = .error "RuntimeError" ∧
      (GeosAgent.runToolCall sampleEnv sampleLogCfg sampleLogState
          ⟨"r1", "boom", some emptyObjStr⟩).1
        = sampleEnv.json.dumps (.obj
            [("error", .str ("Tool " ++ "boom" ++ " raised an exception: "
                ++ "RuntimeError")), ("args", .obj [])])) :=
  ⟨⟨rfl, by decide, rfl,
    (c4_dispatch_error_cases sampleEnv sampleLogCfg sampleLogState
        ⟨"b1", "echo", some "oops"⟩).1 "oops" "Expecting value" rfl (by decide) rfl⟩,
   ⟨rfl, rfl,
    (c4_dispatch_error_cases sampleEnv sampleLogCfg sampleLogState
        ⟨"u1", "nope", some emptyObjStr⟩).2.1 (.obj []) rfl rfl⟩,
   ⟨rfl, rfl, rfl,
    (c4_dispatch_error_cases sampleEnv sampleLogCfg sampleLogState
        ⟨"r1", "boom", some emptyObjStr⟩).2.2 (.obj []) sampleToolRaise
      "RuntimeError" rfl rfl rfl⟩⟩

/-- C10: a falsy arguments field (absent or the empty string) is replaced by
the literal empty-object text, so dispatch proceeds exactly as if the model
had sent that text; given that the parser maps it to the empty object, a
registered tool is invoked with zero named arguments and its output is
returned, with no argument-parse error. -/
theorem c10_falsy_arguments (env : AgentEnv) (lcfg : LogCfg) (lst : LogState)
    (tc : ToolCall) (tool : ToolFn) (out : String)
    (hargs : tc.arguments = none ∨ tc.arguments = some "") :
    argsStrOf tc = emptyObjStr ∧
    GeosAgent.runToolCall env lcfg lst tc
      = GeosAgent.runToolCall env lcfg lst { tc with arguments := some emptyObjStr } ∧
    (env.json.parse emptyObjStr = .ok (.obj []) → env.tool_map tc.name = some tool →
      tool.run (.obj []) = .ok (.str out) →
      (GeosAgent.runToolCall env lcfg lst tc).1 = out) := by
  have h1 : argsStrOf tc = emptyObjStr := by
    rcases hargs with h | h <;> simp [argsStrOf, h]
  have h2 : argsStrOf { tc with arguments := some emptyObjStr } = emptyObjStr := by
    simp [argsStrOf]
  refine ⟨h1, ?_, ?_⟩
  · simp [GeosAgent.runToolCall, h1, h2]
  · intro hp hm hr
    simp [GeosAgent.runToolCall, h1, hp, hm, hr]

/-- Witness for C10: an absent and an empty arguments field both dispatch
with zero named arguments. -/
theorem c10_witness :
    ((⟨"n1", "echo", none⟩ : ToolCall).arguments = none ∧
      argsStrOf ⟨"n1", "echo", none⟩ = emptyObjStr ∧
      sampleEnv.json.parse emptyObjStr = .ok (.obj []) ∧
      sampleEnv.tool_map "echo" = some sampleToolOk ∧
      sampleToolOk.run (.obj []) = .ok (.str "echoed") ∧
      (GeosAgent.runToolCall sampleEnv sampleLogCfg sampleLogState
          ⟨"n1", "echo", none⟩).1 = "echoed") ∧
    ((⟨"e1", "echo", some ""⟩ : ToolCall).arguments = some "" ∧
      argsStrOf ⟨"e1", "echo", some ""⟩ = emptyObjStr ∧
      (GeosAgent.runToolCall sampleEnv sampleLogCfg sampleLogState
          ⟨"e1", "echo", some ""⟩).1 = "echoed") :=
  ⟨⟨rfl,
    (c10_falsy_arguments sampleEnv sampleLogCfg sampleLogState ⟨"n1", "echo", none⟩
        sampleToolOk "echoed" (Or.inl rfl)).1,
    rfl, rfl, rfl,
    (c10_falsy_arguments sampleEnv sampleLogCfg sampleLogState ⟨"n1", "echo", none⟩
        sampleToolOk "echoed" (Or.inl rfl)).2.2 rfl rfl rfl⟩,
   ⟨rfl,
    (c10_falsy_arguments sampleEnv sampleLogCfg sampleLogState ⟨"e1", "echo", some ""⟩
        sampleToolOk "echoed" (Or.inr rfl)).1,
    (c10_falsy_arguments sampleEnv sampleLogCfg sampleLogState ⟨"e1", "echo", some ""⟩
        sampleToolOk "echoed" (Or.inr rfl)).2.2 rfl rfl rfl⟩⟩

/-- Rendering components onto an accumulator only ever extends it. -/
theorem renderFold_extend (cs : List String) (acc : List Char) :
    ∃ t, cs.foldl (fun a c => a ++ '/' :: c.data) acc = acc ++ t := by
  induction cs generalizing acc with
  | nil => exact ⟨[], by simp⟩
  | cons c cs ih =>
      obtain ⟨t, ht⟩ := ih (acc ++ '/' :: c.data)
      exact ⟨'/' :: c.data ++ t, by simp [ht]⟩

/-- A character list is a prefix of itself extended. -/
theorem strPre_append (l t : List Char) : strPre l (l ++ t) = true := by
  induction l with
  | nil => rfl
  | cons a l ih => simp [strPre, ih]

/-- A character list is a prefix of itself. -/
theorem strPre_refl (l : List Char) : strPre l l = true := by
  simpa using strPre_append l []

/-- Component-wise containment under the workspace root implies the
rendered string-prefix check passes. -/
theorem render_string_prefix (root rest : List String) :
    pyStartsWith (renderPath (root ++ rest)) (renderPath root) = true := by
  cases root with
  | nil =>
      cases rest with
      | nil => rfl
      | cons c cs =>
          obtain ⟨t, ht⟩ := renderFold_extend cs ([] ++ '/' :: c.data)
          simp only [List.nil_append] at ht
          simp [pyStartsWith, renderPath, ht, strPre]
  | cons r rs =>
      cases rest with
      | nil =>
          simp only [List.append_nil]
          exact strPre_refl _
      | cons c cs =>
          show strPre (List.foldl (fun acc d => acc ++ '/' :: d.data) [] (r :: rs))
              (List.foldl (fun acc d => acc ++ '/' :: d.data) [] (r :: rs ++ c :: cs)) = true
          rw [List.foldl_append]
          obtain ⟨t, ht⟩ := renderFold_extend (c :: cs)
            (List.foldl (fun acc d => acc ++ '/' :: d.data) [] (r :: rs))
          rw [ht]
          exact strPre_append _ _

/-- A path resolving inside the workspace root passes the containment
check of the file tools. -/
theorem inroot_passes_check (root : List String) (path : String)
    (h : ∃ rest, resolvePath root path = root ++ rest) :
    pyStartsWith (renderPath (resolvePath root path)) (renderPath root) = true := by
  obtain ⟨rest, hr⟩ := h
  rw [hr]
  exact render_string_prefix root rest

/-- C5 (amended): whenever the resolved path's string rendering does not
start with the workspace root's rendering, each file tool returns its
boundary-violation error and performs no filesystem access (the reader and
lister touch no path, the writer leaves the filesystem untouched); every
such refused path is indeed outside the root. -/
theorem c5_boundary_check_refusals (root : List String) (fs : FileSys)
    (dfs : List String → DirLookup) (path content : String) (mc : Nat) (ow : Bool)
    (h : pyStartsWith (renderPath (resolvePath root path)) (renderPath root) = false) :
    ReadFileTool.run root fs path mc
      = (.obj [("error", .str "Attempted to read outside of workspace.")], []) ∧
    (WriteFileTool.run root fs path content ow).1
      = .obj [("error", .str "Attempted to write outside of workspace.")] ∧
    (WriteFileTool.run root fs path content ow).2 = fs ∧
    ListDirTool.run root dfs path
      = (.obj [("error", .str "Attempted to list outside of workspace.")], []) ∧
    ¬ ∃ rest, resolvePath root path = root ++ rest := by
  refine ⟨by simp [ReadFileTool.run, h], by simp [WriteFileTool.run, h],
          by simp [WriteFileTool.run, h], by simp [ListDirTool.run, h], ?_⟩
  rintro ⟨rest, hrest⟩
  rw [hrest, render_string_prefix] at h
  simp at h

/-- Witness for the amended C5 at the spec's own escape example. -/
theorem c5_boundary_witness :
    pyStartsWith (renderPath (resolvePath ["ws"] "../../etc/passwd"))
        (renderPath ["ws"]) = false ∧
    ReadFileTool.run ["ws"] (fun _ => none) "../../etc/passwd" 4000
      = (.obj [("error", .str "Attempted to read outside of workspace.")], []) ∧
    (WriteFileTool.run ["ws"] (fun _ => none) "../../etc/passwd" "x" true).2
      = (fun _ => none) ∧
    ListDirTool.run ["ws"] (fun _ => DirLookup.missing) "../../etc/passwd"
      = (.obj [("error", .str "Attempted to list outside of workspace.")], []) :=
  ⟨rfl,
   (c5_boundary_check_refusals ["ws"] (fun _ => none) (fun _ => DirLookup.missing)
      "../../etc/passwd" "x" 4000 true rfl).1,
   (c5_boundary_check_refusals ["ws"] (fun _ => none) (fun _ => DirLookup.missing)
      "../../etc/passwd" "x" 4000 true rfl).2.2.1,
   (c5_boundary_check_refusals ["ws"] (fun _ => none) (fun _ => DirLookup.missing)
      "../../etc/passwd" "x" 4000 true rfl).2.2.2.1⟩

/-- C5 counterexample: a path resolving to a sibling of the root whose
rendering shares the root's string prefix is NOT refused: the reader
accesses a path outside the workspace root and returns its contents
instead of a boundary-violation error. -/
theorem c5_counterexample :
    resolvePath ["ws"] "../ws2/secret" = ["ws2", "secret"] ∧
    (¬ ∃ rest, (["ws2", "secret"] : List String) = ["ws"] ++ rest) ∧
    (ReadFileTool.run ["ws"]
        (fun p => if p = ["ws2", "secret"] then some "top-secret" else none)
        "../ws2/secret" 4000).2 = [["ws2", "secret"]] ∧
    (ReadFileTool.run ["ws"]
        (fun p => if p = ["ws2", "secret"] then some "top-secret" else none)
        "../ws2/secret" 4000).1
      = .obj [("path", .str "../ws2/secret"), ("content", .str "top-secret")] := by
  refine ⟨rfl, ?_, rfl, rfl⟩
  rintro ⟨rest, hrest⟩
  have h2 := congrArg List.head? hrest
  simp only [List.cons_append, List.head?_cons, Option.some.injEq] at h2
  exact absurd h2 (by decide)

/-- C6: inside the workspace, writing with overwrite false appends to an
existing file (leaving the old contents as a prefix and other files
untouched) and creates a missing file with exactly the given content;
with overwrite true the file afterwards holds exactly the given content. -/
theorem c6_write_overwrite_toggle (root : List String) (fs : FileSys)
    (path content : String)
    (hin : ∃ rest, resolvePath root path = root ++ rest) :
    (∀ old, fs (resolvePath root path) = some old →
      ((WriteFileTool.run root fs path content false).2 (resolvePath root path)
          = some (old ++ content) ∧
        ∀ q, ¬ q = resolvePath root path →
          (WriteFileTool.run root fs path content false).2 q = fs q)) ∧
    (fs (resolvePath root path) = none →
      (WriteFileTool.run root fs path content false).2 (resolvePath root path)
        = some content) ∧
    ((WriteFileTool.run root fs path content true).2 (resolvePath root path)
      = some content) := by
  have hc := inroot_passes_check root path hin
  refine ⟨?_, ?_, ?_⟩
  · intro old hold
    refine ⟨?_, ?_⟩
    · simp [WriteFileTool.run, hc, hold]
    · intro q hq
      simp [WriteFileTool.run, hc, hold, hq]
  · intro hnone
    simp [WriteFileTool.run, hc, hnone]
  · simp [WriteFileTool.run, hc]

/-- Witness for C6: append to an existing file, create a missing one,
overwrite an existing one. -/
theorem c6_witness :
    (∃ rest, resolvePath ["ws"] "notes.txt" = ["ws"] ++ rest) ∧
    (WriteFileTool.run ["ws"]
        (fun p => if p = ["ws", "notes.txt"] then some "Z" else none)
        "notes.txt" "ab" false).2 ["ws", "notes.txt"] = some ("Z" ++ "ab") ∧
    (WriteFileTool.run ["ws"]
        (fun p => if p = ["ws", "notes.txt"] then some "Z" else none)
        "notes.txt" "ab" false).2 ["ws", "other.txt"] = none ∧
    (WriteFileTool.run ["ws"] (fun _ => none) "notes.txt" "ab" false).2
        ["ws", "notes.txt"] = some "ab" ∧
    (WriteFileTool.run ["ws"]
        (fun p => if p = ["ws", "notes.txt"] then some "Z" else none)
        "notes.txt" "ab" true).2 ["ws", "notes.txt"] = some "ab" :=
  ⟨⟨["notes.txt"], rfl⟩,
   ((c6_write_overwrite_toggle ["ws"]
        (fun p => if p = ["ws", "notes.txt"] then some "Z" else none)
        "notes.txt" "ab" ⟨["notes.txt"], rfl⟩).1 "Z" rfl).1,
   ((c6_write_overwrite_toggle ["ws"]
        (fun p => if p = ["ws", "notes.txt"] then some "Z" else none)
        "notes.txt" "ab" ⟨["notes.txt"], rfl⟩).1 "Z" rfl).2
      ["ws", "other.txt"] (by decide),
   (c6_write_overwrite_toggle ["ws"] (fun _ => none)
        "notes.txt" "ab" ⟨["notes.txt"], rfl⟩).2.1 rfl,
   (c6_write_overwrite_toggle ["ws"]
        (fun p => if p = ["ws", "notes.txt"] then some "Z" else none)
        "notes.txt" "ab" ⟨["notes.txt"], rfl⟩).2.2⟩

/-- C7: every shell invocation yields a structured payload: on completion
the captured stdout and stderr are truncated to their last 4000 characters;
on timeout a timeout marker is returned together with whatever partial
output was captured (the empty string when none); tokenization failures and
launch failures become structured error values; nothing is raised. -/
theorem c7_shell_structured_results (env : ShellEnv) (root : List String)
    (command : String) (t : ℚ) :
    (∀ args rc out err, env.shlexSplit command = .ok args →
        env.exec root args t = .completed rc out err →
        ShellCommandTool.run env root command t
          = .obj [("command", .str command), ("returncode", .num rc),
                  ("stdout", .str (pyLastN 4000 out)),
                  ("stderr", .str (pyLastN 4000 err))]) ∧
    (∀ args po pe, env.shlexSplit command = .ok args →
        env.exec root args t = .timedOut po pe →
        ShellCommandTool.run env root command t
          = .obj [("command", .str command),
                  ("error", .str ("Command timed out after " ++ env.floatStr t
                      ++ " seconds")),
                  ("stdout", .str (pyPartial po)), ("stderr", .str (pyPartial pe))]) ∧
    (∀ e, env.shlexSplit command = .error e →
        ShellCommandTool.run env root command t
          = .obj [("error", .str ("Failed to parse command: " ++ e))]) ∧
    (∀ args m, env.shlexSplit command = .ok args →
        env.exec root args t = .failed m →
        ShellCommandTool.run env root command t
          = .obj [("command", .str command),
                  ("error", .str ("Failed to run command: " ++ m))]) ∧
    pyPartial none = "" := by
  refine ⟨?_, ?_, ?_, ?_, rfl⟩
  · intro args rc out err hs hx
    simp [ShellCommandTool.run, hs, hx]
  · intro args po pe hs hx
    simp [ShellCommandTool.run, hs, hx]
  · intro e hs
    simp [ShellCommandTool.run, hs]
  · intro args m hs hx
    simp [ShellCommandTool.run, hs, hx]

/-- A concrete shell collaborator for the C7 witness. -/
def sampleShellEnv : ShellEnv :=
  { shlexSplit := fun c =>
      if c = "badquote" then .error "No closing quotation"
      else if c = "sleep 5" then .ok ["sleep", "5"]
      else if c = "missing-bin" then .ok ["missing-bin"]
      else .ok [c]
    exec := fun _ args _ =>
      if args = ["sleep", "5"] then .timedOut (some "partial-out") none
      else if args = ["missing-bin"] then .failed "FileNotFoundError"
      else .completed 0 "hello" ""
    floatStr := fun _ => "0.01" }

/-- Witness for C7: completion, timeout, parse failure and launch failure
at concrete commands. -/
theorem c7_witness :
    sampleShellEnv.shlexSplit "ok-cmd" = .ok ["ok-cmd"] ∧
    sampleShellEnv.exec ["ws"] ["ok-cmd"] (1 / 100) = .completed 0 "hello" "" ∧
    ShellCommandTool.run sampleShellEnv ["ws"] "ok-cmd" (1 / 100)
      = .obj [("command", .str "ok-cmd"), ("returncode", .num 0),
              ("stdout", .str (pyLastN 4000 "hello")),
              ("stderr", .str (pyLastN 4000 ""))] ∧
    sampleShellEnv.exec ["ws"] ["sleep", "5"] (1 / 100)
      = .timedOut (some "partial-out") none ∧
    ShellCommandTool.run sampleShellEnv ["ws"] "sleep 5" (1 / 100)
      = .obj [("command", .str "sleep 5"),
              ("error", .str ("Command timed out after "
                  ++ sampleShellEnv.floatStr (1 / 100) ++ " seconds")),
              ("stdout", .str (pyPartial (some "partial-out"))),
              ("stderr", .str (pyPartial none))] ∧
    sampleShellEnv.shlexSplit "badquote" = .error "No closing quotation" ∧
    ShellCommandTool.run sampleShellEnv ["ws"] "badquote" (1 / 100)
      = .obj [("error", .str ("Failed to parse command: " ++ "No closing quotation"))] ∧
    ShellCommandTool.run sampleShellEnv ["ws"] "missing-bin" (1 / 100)
      = .obj [("command", .str "missing-bin"),
              ("error", .str ("Failed to run command: " ++ "FileNotFoundError"))] :=
  ⟨rfl, rfl,
   (c7_shell_structured_results sampleShellEnv ["ws"] "ok-cmd" (1 / 100)).1
      ["ok-cmd"] 0 "hello" "" rfl rfl,
   rfl,
   (c7_shell_structured_results sampleShellEnv ["ws"] "sleep 5" (1 / 100)).2.1
      ["sleep", "5"] (some "partial-out") none rfl rfl,
   rfl,
   (c7_shell_structured_results sampleShellEnv ["ws"] "badquote" (1 / 100)).2.2.1
      "No closing quotation" rfl,
   (c7_shell_structured_results sampleShellEnv ["ws"] "missing-bin" (1 / 100)).2.2.2.1
      ["missing-bin"] "FileNotFoundError" rfl rfl⟩
